import Mathlib

/-
Verification of the session-orchestration engine of the embeddable RAG chat
widget (src/App.tsx, src/types.ts).

The TypeScript component is shallowly embedded as pure Lean functions:
  * React state (useState fields) becomes the `AppState` record;
  * each handler (`handleError`, `clearError`, `getFileFromPayload`,
    `handleInitChat`, `handleResetChat`, `handleSendMessage`, and the
    postMessage dispatcher `handleMessage`) becomes a function from an
    environment `Backend` (the outcomes of the asynchronous geminiService
    calls and of `fetch`) and a state to a `StepResult`: the committed final
    state, the outbound postMessage events, and the trace of backend calls
    issued;
  * JavaScript truthiness of optional strings is modelled by `truthy`
    (absent or empty string is falsy) and `a || b` by `jsOr`;
  * the browser's `atob` followed by the charCodeAt loop is modelled by
    `atobBytes` (the WHATWG forgiving-base64 decode producing bytes).
Transient `setUploadProgress` writes inside `handleInitChat` are not tracked
individually because every exit path of the handler ends with
`setUploadProgress(null)` in its `finally` block; the committed value `none`
is modelled.
-/

/-- AppStatus enum from src/types.ts. -/
inductive AppStatus where
  | Initializing
  | Welcome
  | Uploading
  | Chatting
  | Error
deriving DecidableEq

/-- The `retrievedContext` object inside a grounding chunk (src/types.ts). -/
structure RetrievedContext where
  text : Option String
deriving DecidableEq

/-- GroundingChunk from src/types.ts. -/
structure GroundingChunk where
  retrievedContext : Option RetrievedContext
deriving DecidableEq

/-- The role union type of a ChatMessage. -/
inductive MsgRole where
  | user
  | model
deriving DecidableEq

/-- ChatMessage from src/types.ts; `parts` keeps only the text fragments. -/
structure ChatMessage where
  role : MsgRole
  parts : List String
  groundingChunks : Option (List GroundingChunk) := none
deriving DecidableEq

/-- InitChatPayloadFile from src/types.ts: optional fields are `Option`. -/
structure InitChatPayloadFile where
  fileName : String
  mimeType : Option String := none
  url : Option String := none
  base64Data : Option String := none
deriving DecidableEq

/-- QueryResult from src/types.ts. -/
structure QueryResult where
  text : String
  groundingChunks : List GroundingChunk
deriving DecidableEq

/-- A concrete `File` object: name, MIME type and content bytes. -/
structure FileObj where
  name : String
  type : String
  bytes : List Nat
deriving DecidableEq

/-- The uploadProgress record of App.tsx. -/
structure UploadProgress where
  current : Nat
  total : Nat
  message : Option String := none
  fileName : Option String := none
deriving DecidableEq

/-- The React state of the App component: one field per useState hook. -/
structure AppState where
  status : AppStatus
  error : Option String
  uploadProgress : Option UploadProgress
  activeRagStoreName : Option String
  chatHistory : List ChatMessage
  isQueryLoading : Bool
  exampleQuestions : List String
  documentName : String
deriving DecidableEq

/-- The initial values of the useState hooks in App.tsx. -/
def initialState : AppState :=
  { status := .Initializing
    error := none
    uploadProgress := none
    activeRagStoreName := none
    chatHistory := []
    isQueryLoading := false
    exampleQuestions := []
    documentName := "" }

/-- Result of an HTTP fetch that produced a response (as used by
`getFileFromPayload`): the `ok` flag, `statusText`, and the blob. -/
structure FetchResponse where
  ok : Bool
  statusText : String
  blobBytes : List Nat
  blobType : String
deriving DecidableEq

/-- Environment: outcomes of the asynchronous collaborators (geminiService
and fetch) plus `Date.now()`.  `Except.error m` carries the message of the
rejection. -/
structure Backend where
  now : Nat
  initializeResult : Except String Unit
  createRagStore : String → Except String String
  fetchUrl : String → Except String FetchResponse
  uploadToRagStore : String → FileObj → Except String Unit
  generateExampleQuestions : String → Except String (List String)
  fileSearch : String → String → Except String QueryResult
  deleteRagStore : String → Except String Unit

/-- Trace entry: one backend call issued by a handler. -/
inductive BackendCall where
  | initializeService
  | createRagStore (displayName : String)
  | fetchUrl (url : String)
  | uploadToRagStore (storeName : String) (file : FileObj)
  | generateExampleQuestions (storeName : String)
  | fileSearch (storeName : String) (message : String)
  | deleteRagStore (storeName : String)
deriving DecidableEq

/-- Outbound postMessage events (ChildMessage in src/types.ts). -/
inductive ChildMsg where
  | chatReady (documentName : String)
  | chatResponse (text : String) (groundingChunks : List GroundingChunk)
  | chatError (message : String)
  | chatEnded (message : String)
deriving DecidableEq

/-- Inbound postMessage commands (ParentMessage in src/types.ts); `unknown`
covers unrecognized type tags. -/
inductive ParentMsg where
  | initChat (files : List InitChatPayloadFile) (chatDisplayName : Option String)
  | sendMessage (message : String)
  | resetChat
  | unknown (tag : String)

/-- Outcome of processing one command: committed state, emitted events (in
order), and the trace of backend calls issued (in order). -/
structure StepResult where
  state : AppState
  events : List ChildMsg
  calls : List BackendCall
deriving DecidableEq

/-- JavaScript truthiness of an optional string: absent and `""` are falsy. -/
def truthy : Option String → Bool
  | none => false
  | some s => !(s == "")

/-- JavaScript `a || b` for an optional string `a` and default `b`. -/
def jsOr (o : Option String) (d : String) : String :=
  match o with
  | some s => if s == "" then d else s
  | none => d

/-- Value of the base64 alphabet at index `n` (valid for `n < 64`). -/
def b64Char (n : Nat) : Char :=
  if n < 26 then Char.ofNat (65 + n)
  else if n < 52 then Char.ofNat (97 + (n - 26))
  else if n < 62 then Char.ofNat (48 + (n - 52))
  else if n = 62 then '+'
  else '/'

/-- Index of a character in the base64 alphabet, `none` if absent. -/
def b64Index (c : Char) : Option Nat :=
  if 'A' ≤ c ∧ c ≤ 'Z' then some (c.toNat - 65)
  else if 'a' ≤ c ∧ c ≤ 'z' then some (c.toNat - 97 + 26)
  else if '0' ≤ c ∧ c ≤ '9' then some (c.toNat - 48 + 52)
  else if c = '+' then some 62
  else if c = '/' then some 63
  else none

/-- Alphabet characters of the base64 encoding of a byte list (no padding). -/
def b64Body : List Nat → List Char
  | [] => []
  | [a] => [b64Char (a / 4), b64Char (a % 4 * 16)]
  | [a, b] => [b64Char (a / 4), b64Char (a % 4 * 16 + b / 16), b64Char (b % 16 * 4)]
  | a :: b :: c :: rest =>
      b64Char (a / 4) :: b64Char (a % 4 * 16 + b / 16) ::
      b64Char (b % 16 * 4 + c / 64) :: b64Char (c % 64) :: b64Body rest

/-- Padding characters of the base64 encoding of a byte list. -/
def b64Pad : List Nat → List Char
  | [] => []
  | [_] => ['=', '=']
  | [_, _] => ['=']
  | _ :: _ :: _ :: rest => b64Pad rest

/-- Standard (btoa-style) base64 encoding of a byte list, as characters. -/
def b64EncodeBytes (bs : List Nat) : List Char := b64Body bs ++ b64Pad bs

/-- Standard base64 encoding of a byte list, as a string. -/
def b64Encode (bs : List Nat) : String := String.mk (b64EncodeBytes bs)

/-- ASCII whitespace removed by forgiving-base64 decoding. -/
def isB64Whitespace (c : Char) : Bool :=
  c == '\t' || c == '\n' || c == '\x0c' || c == '\r' || c == ' '

/-- Remove up to two trailing `=` characters (forgiving-base64 step). -/
def stripB64Pad (l : List Char) : List Char :=
  match l.reverse with
  | c1 :: c2 :: rest =>
      if c1 = '=' then (if c2 = '=' then rest.reverse else (c2 :: rest).reverse) else l
  | [c1] => if c1 = '=' then [] else l
  | [] => l

/-- Map every character to its alphabet index; `none` if any is invalid. -/
def b64IndexList : List Char → Option (List Nat)
  | [] => some []
  | c :: rest =>
    match b64Index c, b64IndexList rest with
    | some n, some ns => some (n :: ns)
    | _, _ => none

/-- Reassemble bytes from a list of sextets (forgiving-base64 bit buffer:
a final group of two sextets yields one byte, of three yields two). -/
def decodeSextets : List Nat → List Nat
  | s1 :: s2 :: s3 :: s4 :: rest =>
      (s1 * 4 + s2 / 16) :: (s2 % 16 * 16 + s3 / 4) :: (s3 % 4 * 64 + s4) :: decodeSextets rest
  | [s1, s2] => [s1 * 4 + s2 / 16]
  | [s1, s2, s3] => [s1 * 4 + s2 / 16, s2 % 16 * 16 + s3 / 4]
  | _ => []

/-- The sextet sequence underlying the base64 encoding of a byte list. -/
def b64Sextets : List Nat → List Nat
  | [] => []
  | [a] => [a / 4, a % 4 * 16]
  | [a, b] => [a / 4, a % 4 * 16 + b / 16, b % 16 * 4]
  | a :: b :: c :: rest =>
      a / 4 :: (a % 4 * 16 + b / 16) :: (b % 16 * 4 + c / 64) :: c % 64 :: b64Sextets rest

/-- Model of `atob(s)` followed by the charCodeAt loop of
`getFileFromPayload`: WHATWG forgiving-base64 decode to a byte list, or a
decoding error for malformed input. -/
def atobBytes (s : String) : Except String (List Nat) :=
  let data0 := s.toList.filter (fun c => !isB64Whitespace c)
  let data := if data0.length % 4 = 0 then stripB64Pad data0 else data0
  if data.length % 4 = 1 then
    .error "InvalidCharacterError: The string to be decoded is not correctly encoded."
  else
    match b64IndexList data with
    | none => .error "InvalidCharacterError: The string to be decoded is not correctly encoded."
    | some sextets => .ok (decodeSextets sextets)

/-- Error message of the validation branch of `getFileFromPayload`. -/
def invalidPayloadMsg : String :=
  "Invalid file payload: must provide url or base64Data with mimeType."

/-- `getFileFromPayload` from App.tsx: resolve a payload into a File, either
by fetching its `url` or by decoding its inline base64 content; the second
component is the trace of fetch calls issued. -/
def getFileFromPayload (env : Backend) (p : InitChatPayloadFile) :
    Except String FileObj × List BackendCall :=
  if truthy p.url then
    let u := p.url.getD ""
    match env.fetchUrl u with
    | .error e => (.error e, [.fetchUrl u])
    | .ok resp =>
      if !resp.ok then
        (.error ("Failed to fetch file from URL: " ++ u ++ " - " ++ resp.statusText),
          [.fetchUrl u])
      else
        (.ok { name := jsOr (some p.fileName) "unknown_file"
               type := jsOr p.mimeType resp.blobType
               bytes := resp.blobBytes },
          [.fetchUrl u])
  else if truthy p.base64Data && truthy p.mimeType then
    match atobBytes (p.base64Data.getD "") with
    | .error e => (.error e, [])
    | .ok bytes =>
      (.ok { name := jsOr (some p.fileName) "unknown_file"
             type := p.mimeType.getD ""
             bytes := bytes }, [])
  else
    (.error invalidPayloadMsg, [])

/-- `handleError` from App.tsx: record the formatted message, move to the
Error status, and emit a chatError event. -/
def errorText (message : String) (err : Option String) : String :=
  message ++ (match err with | some e => ": " ++ e | none => "")

/-- `handleError` from App.tsx (state change and emitted event). -/
def handleError (s : AppState) (message : String) (err : Option String) :
    AppState × ChildMsg :=
  let em := errorText message err
  ({ s with error := some em, status := .Error }, .chatError em)

/-- `clearError` from App.tsx: clear the diagnostic and return to
Initializing (it touches no other field). -/
def clearError (s : AppState) : AppState :=
  { s with error := none, status := .Initializing }

/-- The lowercased-message test of the catch block of `handleInitChat`. -/
def listStartsWith : List Char → List Char → Bool
  | [], _ => true
  | _ :: _, [] => false
  | p :: ps, c :: cs => p == c && listStartsWith ps cs

/-- Substring containment on character lists. -/
def listContainsSub (pat : List Char) : List Char → Bool
  | [] => listStartsWith pat []
  | c :: rest => listStartsWith pat (c :: rest) || listContainsSub pat rest

/-- ASCII lowercasing of one character (the behavior of `toLowerCase` on
the ASCII range, which is all the credential test needs). -/
def lowerChar (c : Char) : Char :=
  if 'A' ≤ c ∧ c ≤ 'Z' then Char.ofNat (c.toNat + 32) else c

/-- The credential test of `handleInitChat`'s catch block: the lowercased
error message contains one of the two key-related phrases. -/
def errMsgIndicatesBadKey (e : String) : Bool :=
  let lower := e.toList.map lowerChar
  listContainsSub "api key not valid".toList lower ||
  listContainsSub "requested entity was not found".toList lower

/-- The specialized credential diagnostic of `handleInitChat`. -/
def apiKeyErrorMsg : String :=
  "The API key is invalid or not found. Please ensure a valid API Key is configured."

/-- The catch block of `handleInitChat`: pick the diagnostic, move to Error,
and issue a compensating delete when a store name was already assigned. -/
def initChatCatch (s : AppState) (err : String) (ragStoreName : Option String) :
    AppState × List ChildMsg × List BackendCall :=
  let r :=
    if errMsgIndicatesBadKey err then handleError s apiKeyErrorMsg (some err)
    else handleError s "Failed to start chat session" (some err)
  match ragStoreName with
  | some n => (r.1, [r.2], [.deleteRagStore n])
  | none => (r.1, [r.2], [])

/-- The sequential resolve-and-upload loop of `handleInitChat`: on success
returns the resolved File objects in order; the trace interleaves the fetch
calls of resolution with the upload calls. -/
def uploadFilesLoop (env : Backend) (ragStoreName : String) :
    List InitChatPayloadFile → Except String (List FileObj) × List BackendCall
  | [] => (.ok [], [])
  | p :: rest =>
    match getFileFromPayload env p with
    | (.error e, cs) => (.error e, cs)
    | (.ok file, cs) =>
      match env.uploadToRagStore ragStoreName file with
      | .error e => (.error e, cs ++ [.uploadToRagStore ragStoreName file])
      | .ok _ =>
        match uploadFilesLoop env ragStoreName rest with
        | (.ok files, cs') =>
            (.ok (file :: files), cs ++ [.uploadToRagStore ragStoreName file] ++ cs')
        | (.error e, cs') =>
            (.error e, cs ++ [.uploadToRagStore ragStoreName file] ++ cs')

/-- `handleInitChat` from App.tsx: the full initialization sequence —
empty-list validation, `geminiService.initialize()`, store creation, the
resolve-and-upload loop, question generation, document-label computation,
and the catch block with compensating deletion.  Every exit path commits
`uploadProgress = none` (the `finally` block). -/
def handleInitChat (env : Backend) (s : AppState)
    (filePayloads : List InitChatPayloadFile) (chatDisplayName : Option String) :
    StepResult :=
  if filePayloads.length = 0 then
    let r := handleError s "No files provided for chat initialization." none
    ⟨r.1, [r.2], []⟩
  else
    match env.initializeResult with
    | .error e =>
      let r := handleError s "Initialization failed." (some e)
      ⟨r.1, [r.2], [.initializeService]⟩
    | .ok _ =>
      let s1 := { s with status := AppStatus.Uploading, error := none }
      let storeName := "chat-session-" ++ toString env.now
      match env.createRagStore storeName with
      | .error e =>
        let r := initChatCatch s1 e none
        ⟨{ r.1 with uploadProgress := none }, r.2.1,
          [.initializeService, .createRagStore storeName] ++ r.2.2⟩
      | .ok ragStoreName =>
        let s2 := { s1 with activeRagStoreName := some ragStoreName }
        match uploadFilesLoop env ragStoreName filePayloads with
        | (.error e, cs) =>
          let r := initChatCatch s2 e (some ragStoreName)
          ⟨{ r.1 with uploadProgress := none }, r.2.1,
            [.initializeService, .createRagStore storeName] ++ cs ++ r.2.2⟩
        | (.ok filesToUpload, cs) =>
          match env.generateExampleQuestions ragStoreName with
          | .error e =>
            let r := initChatCatch s2 e (some ragStoreName)
            ⟨{ r.1 with uploadProgress := none }, r.2.1,
              [.initializeService, .createRagStore storeName] ++ cs ++
                [.generateExampleQuestions ragStoreName] ++ r.2.2⟩
          | .ok questions =>
            let docName :=
              if truthy chatDisplayName then chatDisplayName.getD ""
              else match filesToUpload with
                | [f] => f.name
                | [f1, f2] => f1.name ++ " & " ++ f2.name
                | l => toString l.length ++ " documents"
            ⟨{ s2 with exampleQuestions := questions
                       documentName := docName
                       chatHistory := []
                       status := AppStatus.Chatting
                       uploadProgress := none },
              [.chatReady docName],
              [.initializeService, .createRagStore storeName] ++ cs ++
                [.generateExampleQuestions ragStoreName]⟩

/-- `handleResetChat` from App.tsx: delete the active store when one is set
(on deletion failure `handleError` runs and nothing is cleared), otherwise
clear the state directly; `isQueryLoading` is restored by the `finally`. -/
def handleResetChat (env : Backend) (s : AppState) : StepResult :=
  if truthy s.activeRagStoreName then
    let n := s.activeRagStoreName.getD ""
    match env.deleteRagStore n with
    | .ok _ =>
      ⟨{ s with activeRagStoreName := none
                chatHistory := []
                exampleQuestions := []
                documentName := ""
                status := AppStatus.Initializing
                isQueryLoading := false },
        [.chatEnded "Chat session reset."], [.deleteRagStore n]⟩
    | .error e =>
      let r := handleError s "Failed to delete RAG store during reset." (some e)
      ⟨{ r.1 with isQueryLoading := false }, [r.2], [.deleteRagStore n]⟩
  else
    ⟨{ s with activeRagStoreName := none
              chatHistory := []
              exampleQuestions := []
              documentName := ""
              status := AppStatus.Initializing },
      [.chatEnded "Chat session reset (no active store)."], []⟩

/-- The fixed apology text appended to history on a query failure. -/
def apologyText : String := "Sorry, I encountered an error. Please try again."

/-- `handleSendMessage` from App.tsx: guard on an active store, append the
user message optimistically, then either append the model reply and emit
chatResponse, or append the apology, run `handleError`, and emit a second
chatError. -/
def handleSendMessage (env : Backend) (s : AppState) (message : String) :
    StepResult :=
  if !truthy s.activeRagStoreName then
    ⟨s, [.chatError "No active chat session. Please initialize first."], []⟩
  else
    let n := s.activeRagStoreName.getD ""
    let userMessage : ChatMessage := { role := .user, parts := [message] }
    let s1 := { s with chatHistory := s.chatHistory ++ [userMessage] }
    match env.fileSearch n message with
    | .ok result =>
      let modelMessage : ChatMessage :=
        { role := .model, parts := [result.text]
          groundingChunks := some result.groundingChunks }
      ⟨{ s1 with chatHistory := s1.chatHistory ++ [modelMessage], isQueryLoading := false },
        [.chatResponse result.text result.groundingChunks], [.fileSearch n message]⟩
    | .error err =>
      let errorMessage : ChatMessage := { role := .model, parts := [apologyText] }
      let s2 := { s1 with chatHistory := s1.chatHistory ++ [errorMessage] }
      let r := handleError s2 "Failed to get response" (some err)
      ⟨{ r.1 with isQueryLoading := false },
        [r.2, .chatError ("Failed to get response: " ++ err)], [.fileSearch n message]⟩

/-- The postMessage dispatcher (`handleMessage` in App.tsx): status guards
for initChat and sendMessage, unconditional dispatch of resetChat, and
silent dropping of unknown types. -/
def handleMessage (env : Backend) (s : AppState) (m : ParentMsg) : StepResult :=
  match m with
  | .initChat files displayName =>
    if s.status ≠ .Initializing ∧ s.status ≠ .Error ∧ s.status ≠ .Chatting then
      ⟨s, [], []⟩
    else
      handleInitChat env s files displayName
  | .sendMessage msg =>
    if s.status = .Chatting then handleSendMessage env s msg
    else ⟨s, [.chatError "Chat is not active to send message."], []⟩
  | .resetChat => handleResetChat env s
  | .unknown _ => ⟨s, [], []⟩

/-- Session states reachable from the initial state by host commands and by
the local Error-acknowledgment action (`clearError`). -/
inductive Reachable : AppState → Prop where
  | init : Reachable initialState
  | step (env : Backend) (m : ParentMsg) {s : AppState} :
      Reachable s → Reachable (handleMessage env s m).state
  | ack {s : AppState} : Reachable s → Reachable (clearError s)

/-- A backend environment in which every collaborator call succeeds. -/
def envOk : Backend :=
  { now := 0
    initializeResult := .ok ()
    createRagStore := fun _ => .ok "store-1"
    fetchUrl := fun _ =>
      .ok { ok := true, statusText := "OK", blobBytes := [1, 2], blobType := "application/pdf" }
    uploadToRagStore := fun _ _ => .ok ()
    generateExampleQuestions := fun _ => .ok ["q1"]
    fileSearch := fun _ _ => .ok { text := "answer", groundingChunks := [] }
    deleteRagStore := fun _ => .ok () }

/-- Like `envOk` but every upload to the store is rejected. -/
def envUploadFail : Backend :=
  { envOk with uploadToRagStore := fun _ _ => .error "upload failed" }

/-- Like `envOk` but every query (fileSearch) is rejected. -/
def envQueryFail : Backend :=
  { envOk with fileSearch := fun _ _ => .error "backend unavailable" }

/-- Like `envOk` but every store deletion is rejected. -/
def envDeleteFail : Backend :=
  { envOk with deleteRagStore := fun _ => .error "delete failed" }

/-- A concrete inline-base64 file payload ("ABC" as A.pdf). -/
def payloadA : InitChatPayloadFile :=
  { fileName := "A.pdf", mimeType := some "application/pdf", base64Data := some "QUJD" }

/-- A second concrete inline-base64 file payload (B.pdf). -/
def payloadB : InitChatPayloadFile :=
  { fileName := "B.pdf", mimeType := some "application/pdf", base64Data := some "QUJD" }

/-- A payload carrying neither a url nor inline data. -/
def payloadEmptySource : InitChatPayloadFile :=
  { fileName := "nothing.pdf" }

/-- A payload with both a url and inline data populated. -/
def payloadBoth : InitChatPayloadFile :=
  { fileName := "dual.pdf", mimeType := none, url := some "https://example.com/a.pdf",
    base64Data := some "QUJD" }

/-- Recognizer for upload calls in a backend trace. -/
def isUploadCall : BackendCall → Bool
  | .uploadToRagStore _ _ => true
  | _ => false

/-- Number of upload calls in a backend trace. -/
def countUploads (cs : List BackendCall) : Nat := (cs.filter isUploadCall).length

/-- The document-label rule as the spec words it, on the resolved files:
caller-supplied display name if given; else the single file's name; else
"A & B" for exactly two files; else "N documents". -/
def documentLabelSpec (chatDisplayName : Option String) (files : List FileObj) : String :=
  if truthy chatDisplayName then chatDisplayName.getD ""
  else match files with
    | [f] => f.name
    | [f1, f2] => f1.name ++ " & " ++ f2.name
    | l => toString l.length ++ " documents"

/-- The state after a fully successful initChat of `payloadA` under `envOk`. -/
def stateAfterInit : AppState :=
  (handleMessage envOk initialState (.initChat [payloadA] none)).state

/-- The state after a successful query in `stateAfterInit`. -/
def stateAfterChat : AppState :=
  (handleMessage envOk stateAfterInit (.sendMessage "hello")).state

/-- The state after an initChat whose upload step failed after the store was
created: status Error, with the store identifier still recorded. -/
def stateAfterFailedInit : AppState :=
  (handleMessage envUploadFail initialState (.initChat [payloadA] none)).state

/-- Decoding inverts the alphabet on all 64 indices. -/
theorem b64Index_b64Char : ∀ n, n < 64 → b64Index (b64Char n) = some n := by decide

/-- No alphabet character is base64 whitespace. -/
theorem b64Char_not_ws : ∀ n, n < 64 → isB64Whitespace (b64Char n) = false := by decide

/-- No alphabet character is the padding character. -/
theorem b64Char_ne_pad : ∀ n, n < 64 → b64Char n ≠ '=' := by decide

/-- Every character of an encoding body is an alphabet character. -/
theorem b64Body_mem : ∀ (bs : List Nat), (∀ b ∈ bs, b < 256) →
    ∀ d ∈ b64Body bs, ∃ n, n < 64 ∧ d = b64Char n
  | [], _, d, hd => by simp [b64Body] at hd
  | [a], h, d, hd => by
      have ha : a < 256 := h a (by simp)
      simp only [b64Body, List.mem_cons, List.not_mem_nil, or_false] at hd
      rcases hd with rfl | rfl
      · exact ⟨a / 4, by omega, rfl⟩
      · exact ⟨a % 4 * 16, by omega, rfl⟩
  | [a, b], h, d, hd => by
      have ha : a < 256 := h a (by simp)
      have hb : b < 256 := h b (by simp)
      simp only [b64Body, List.mem_cons, List.not_mem_nil, or_false] at hd
      rcases hd with rfl | rfl | rfl
      · exact ⟨a / 4, by omega, rfl⟩
      · exact ⟨a % 4 * 16 + b / 16, by omega, rfl⟩
      · exact ⟨b % 16 * 4, by omega, rfl⟩
  | a :: b :: c :: rest, h, d, hd => by
      have ha : a < 256 := h a (by simp)
      have hb : b < 256 := h b (by simp)
      have hc : c < 256 := h c (by simp)
      simp only [b64Body, List.mem_cons] at hd
      rcases hd with rfl | rfl | rfl | rfl | hmem
      · exact ⟨a / 4, by omega, rfl⟩
      · exact ⟨a % 4 * 16 + b / 16, by omega, rfl⟩
      · exact ⟨b % 16 * 4 + c / 64, by omega, rfl⟩
      · exact ⟨c % 64, by omega, rfl⟩
      · exact b64Body_mem rest (fun x hx => h x (by simp [hx])) d hmem

/-- The padding of an encoding is one of the three possible shapes. -/
theorem b64Pad_cases : ∀ bs : List Nat,
    b64Pad bs = [] ∨ b64Pad bs = ['='] ∨ b64Pad bs = ['=', '=']
  | [] => Or.inl rfl
  | [_] => Or.inr (Or.inr rfl)
  | [_, _] => Or.inr (Or.inl rfl)
  | _ :: _ :: _ :: rest => by simpa [b64Pad] using b64Pad_cases rest

/-- An encoding contains no whitespace, so the forgiving-base64 whitespace
filter leaves it unchanged. -/
theorem b64Encode_filter (bs : List Nat) (h : ∀ b ∈ bs, b < 256) :
    (b64EncodeBytes bs).filter (fun c => !isB64Whitespace c) = b64EncodeBytes bs := by
  rw [List.filter_eq_self]
  intro d hd
  rw [b64EncodeBytes, List.mem_append] at hd
  rcases hd with hd | hd
  · obtain ⟨n, hn, rfl⟩ := b64Body_mem bs h d hd
    simp [b64Char_not_ws n hn]
  · rcases b64Pad_cases bs with hp | hp | hp <;> rw [hp] at hd <;> simp at hd <;>
      subst hd <;> rfl

/-- The length of an encoding is a multiple of four. -/
theorem b64EncodeBytes_length_mod : ∀ bs : List Nat, (b64EncodeBytes bs).length % 4 = 0
  | [] => rfl
  | [_] => by simp [b64EncodeBytes, b64Body, b64Pad]
  | [_, _] => by simp [b64EncodeBytes, b64Body, b64Pad]
  | a :: b :: c :: rest => by
      have ih := b64EncodeBytes_length_mod rest
      simp only [b64EncodeBytes, b64Body, b64Pad, List.length_append, List.length_cons] at ih ⊢
      omega

/-- The length of an encoding body is never 1 modulo 4. -/
theorem b64Body_length_mod : ∀ bs : List Nat, (b64Body bs).length % 4 ≠ 1
  | [] => by simp [b64Body]
  | [_] => by simp [b64Body]
  | [_, _] => by simp [b64Body]
  | _ :: _ :: _ :: rest => by
      have ih := b64Body_length_mod rest
      simp only [b64Body, List.length_cons]
      omega

/-- Stripping the padding from an encoding yields exactly its body. -/
theorem stripB64Pad_b64Encode (bs : List Nat) (h : ∀ b ∈ bs, b < 256) :
    stripB64Pad (b64EncodeBytes bs) = b64Body bs := by
  have hne : ∀ d ∈ b64Body bs, d ≠ '=' := by
    intro d hd
    obtain ⟨n, hn, rfl⟩ := b64Body_mem bs h d hd
    exact b64Char_ne_pad n hn
  rcases b64Pad_cases bs with hp | hp | hp <;> rw [b64EncodeBytes, hp]
  · rw [List.append_nil]
    rcases hrev : (b64Body bs).reverse with _ | ⟨c1, _ | ⟨c2, cs⟩⟩
    · simp [stripB64Pad, hrev]
    · have hc1 : c1 ≠ '=' := by
        refine hne c1 ?_
        rw [← List.mem_reverse, hrev]; simp
      simp [stripB64Pad, hrev, hc1]
    · have hc1 : c1 ≠ '=' := by
        refine hne c1 ?_
        rw [← List.mem_reverse, hrev]; simp
      simp [stripB64Pad, hrev, hc1]
  · rcases hrev : (b64Body bs).reverse with _ | ⟨c2, cs⟩
    · have hbody : b64Body bs = [] := by
        simpa using congrArg List.reverse hrev
      simp [stripB64Pad, hbody]
    · have hc2 : c2 ≠ '=' := by
        refine hne c2 ?_
        rw [← List.mem_reverse, hrev]; simp
      have hrev2 : (b64Body bs ++ ['=']).reverse = '=' :: c2 :: cs := by
        simp [List.reverse_append, hrev]
      have hback : (c2 :: cs).reverse = b64Body bs := by
        rw [← hrev, List.reverse_reverse]
      simp [stripB64Pad, hrev2, hc2, hback]
  · have hrev2 : (b64Body bs ++ ['=', '=']).reverse = '=' :: '=' :: (b64Body bs).reverse := by
      simp [List.reverse_append]
    simp [stripB64Pad, hrev2]

/-- Index mapping distributes over append when both halves succeed. -/
theorem b64IndexList_append (l1 l2 : List Char) (r1 r2 : List Nat)
    (h1 : b64IndexList l1 = some r1) (h2 : b64IndexList l2 = some r2) :
    b64IndexList (l1 ++ l2) = some (r1 ++ r2) := by
  induction l1 generalizing r1 with
  | nil =>
    simp only [b64IndexList] at h1
    cases h1
    simpa using h2
  | cons c cs ih =>
    have hstep : (c :: cs) ++ l2 = c :: (cs ++ l2) := rfl
    rw [hstep]
    simp only [b64IndexList] at h1 ⊢
    cases hidx : b64Index c with
    | none => rw [hidx] at h1; simp at h1
    | some n =>
      rw [hidx] at h1
      cases hrest : b64IndexList cs with
      | none => rw [hrest] at h1; simp at h1
      | some ns =>
        rw [hrest] at h1
        rw [ih ns hrest]
        simp only [Option.some.injEq] at h1
        subst h1
        rfl

/-- Mapping the body of an encoding back to indices yields its sextets. -/
theorem b64IndexList_b64Body : ∀ (bs : List Nat), (∀ b ∈ bs, b < 256) →
    b64IndexList (b64Body bs) = some (b64Sextets bs)
  | [], _ => rfl
  | [a], h => by
      have ha : a < 256 := h a (by simp)
      have h1 := b64Index_b64Char (a / 4) (by omega)
      have h2 := b64Index_b64Char (a % 4 * 16) (by omega)
      simp [b64Body, b64Sextets, b64IndexList, h1, h2]
  | [a, b], h => by
      have ha : a < 256 := h a (by simp)
      have hb : b < 256 := h b (by simp)
      have h1 := b64Index_b64Char (a / 4) (by omega)
      have h2 := b64Index_b64Char (a % 4 * 16 + b / 16) (by omega)
      have h3 := b64Index_b64Char (b % 16 * 4) (by omega)
      simp [b64Body, b64Sextets, b64IndexList, h1, h2, h3]
  | a :: b :: c :: rest, h => by
      have ha : a < 256 := h a (by simp)
      have hb : b < 256 := h b (by simp)
      have hc : c < 256 := h c (by simp)
      have h1 := b64Index_b64Char (a / 4) (by omega)
      have h2 := b64Index_b64Char (a % 4 * 16 + b / 16) (by omega)
      have h3 := b64Index_b64Char (b % 16 * 4 + c / 64) (by omega)
      have h4 := b64Index_b64Char (c % 64) (by omega)
      have ih := b64IndexList_b64Body rest (fun x hx => h x (by simp [hx]))
      have hgrp : b64IndexList [b64Char (a / 4), b64Char (a % 4 * 16 + b / 16),
          b64Char (b % 16 * 4 + c / 64), b64Char (c % 64)] =
          some [a / 4, a % 4 * 16 + b / 16, b % 16 * 4 + c / 64, c % 64] := by
        simp [b64IndexList, h1, h2, h3, h4]
      calc b64IndexList (b64Body (a :: b :: c :: rest))
          = b64IndexList ([b64Char (a / 4), b64Char (a % 4 * 16 + b / 16),
              b64Char (b % 16 * 4 + c / 64), b64Char (c % 64)] ++ b64Body rest) := rfl
        _ = some ([a / 4, a % 4 * 16 + b / 16, b % 16 * 4 + c / 64, c % 64] ++
              b64Sextets rest) := b64IndexList_append _ _ _ _ hgrp ih
        _ = some (b64Sextets (a :: b :: c :: rest)) := rfl

/-- Reassembling the sextets of an encoding recovers the original bytes. -/
theorem decodeSextets_b64Sextets : ∀ (bs : List Nat), (∀ b ∈ bs, b < 256) →
    decodeSextets (b64Sextets bs) = bs
  | [], _ => rfl
  | [a], h => by
      have ha : a < 256 := h a (by simp)
      have e1 : a / 4 * 4 + a % 4 * 16 / 16 = a := by omega
      calc decodeSextets (b64Sextets [a])
          = [a / 4 * 4 + a % 4 * 16 / 16] := rfl
        _ = [a] := by rw [e1]
  | [a, b], h => by
      have ha : a < 256 := h a (by simp)
      have hb : b < 256 := h b (by simp)
      have e1 : a / 4 * 4 + (a % 4 * 16 + b / 16) / 16 = a := by omega
      have e2 : (a % 4 * 16 + b / 16) % 16 * 16 + b % 16 * 4 / 4 = b := by omega
      calc decodeSextets (b64Sextets [a, b])
          = [a / 4 * 4 + (a % 4 * 16 + b / 16) / 16,
             (a % 4 * 16 + b / 16) % 16 * 16 + b % 16 * 4 / 4] := rfl
        _ = [a, b] := by rw [e1, e2]
  | a :: b :: c :: rest, h => by
      have ha : a < 256 := h a (by simp)
      have hb : b < 256 := h b (by simp)
      have hc : c < 256 := h c (by simp)
      have ih := decodeSextets_b64Sextets rest (fun x hx => h x (by simp [hx]))
      have e1 : a / 4 * 4 + (a % 4 * 16 + b / 16) / 16 = a := by omega
      have e2 : (a % 4 * 16 + b / 16) % 16 * 16 + (b % 16 * 4 + c / 64) / 4 = b := by omega
      have e3 : (b % 16 * 4 + c / 64) % 4 * 64 + c % 64 = c := by omega
      calc decodeSextets (b64Sextets (a :: b :: c :: rest))
          = (a / 4 * 4 + (a % 4 * 16 + b / 16) / 16) ::
            ((a % 4 * 16 + b / 16) % 16 * 16 + (b % 16 * 4 + c / 64) / 4) ::
            ((b % 16 * 4 + c / 64) % 4 * 64 + c % 64) ::
            decodeSextets (b64Sextets rest) := rfl
        _ = a :: b :: c :: rest := by rw [e1, e2, e3, ih]

/-- Round-trip at the decoder level: forgiving-base64 decoding of a standard
base64 encoding recovers the original bytes. -/
theorem atobBytes_b64Encode (bs : List Nat) (h : ∀ b ∈ bs, b < 256) :
    atobBytes (b64Encode bs) = .ok bs := by
  have htl : (b64Encode bs).toList = b64EncodeBytes bs := rfl
  rw [atobBytes]
  simp only [htl, b64Encode_filter bs h]
  rw [if_pos (b64EncodeBytes_length_mod bs), stripB64Pad_b64Encode bs h,
    if_neg (b64Body_length_mod bs), b64IndexList_b64Body bs h]
  simp [decodeSextets_b64Sextets bs h]

/-- File resolution never issues an upload call (its trace holds at most a
fetch). -/
theorem getFileFromPayload_no_upload (env : Backend) (p : InitChatPayloadFile) :
    countUploads (getFileFromPayload env p).2 = 0 := by
  simp only [getFileFromPayload]
  split
  · split
    · rfl
    · split <;> rfl
  · split
    · split <;> rfl
    · rfl

/-- Upload counting distributes over trace concatenation. -/
theorem countUploads_append (l1 l2 : List BackendCall) :
    countUploads (l1 ++ l2) = countUploads l1 + countUploads l2 := by
  simp [countUploads, List.filter_append]

/-- If a payload in the list fails resolution with the validation error, the
loop issues at most one upload per file strictly before it. -/
theorem uploadFilesLoop_stops (env : Backend) (store : String) (p : InitChatPayloadFile)
    (hp : getFileFromPayload env p = (.error invalidPayloadMsg, [])) :
    ∀ pre post, countUploads (uploadFilesLoop env store (pre ++ p :: post)).2 ≤ pre.length := by
  intro pre
  induction pre with
  | nil =>
    intro post
    rw [List.nil_append, uploadFilesLoop, hp]
    exact Nat.le.refl
  | cons q pre' ih =>
    intro post
    have hq0 := getFileFromPayload_no_upload env q
    rw [List.cons_append, uploadFilesLoop]
    rcases hq : getFileFromPayload env q with ⟨r, cs⟩
    rw [hq] at hq0
    dsimp only at hq0
    cases r with
    | error e =>
      dsimp only
      rw [hq0]
      simp
    | ok f =>
      dsimp only
      have h1 : countUploads [BackendCall.uploadToRagStore store f] = 1 := rfl
      cases hu : env.uploadToRagStore store f with
      | error e =>
        dsimp only
        rw [countUploads_append, hq0, h1]
        simp
      | ok u =>
        dsimp only
        rcases hrec : uploadFilesLoop env store (pre' ++ p :: post) with ⟨r', cs'⟩
        have hrec0 := ih post
        rw [hrec] at hrec0
        dsimp only at hrec0
        cases r' with
        | error e =>
          dsimp only
          rw [countUploads_append, countUploads_append, hq0, h1]
          simp only [List.length_cons]
          omega
        | ok fs =>
          dsimp only
          rw [countUploads_append, countUploads_append, hq0, h1]
          simp only [List.length_cons]
          omega

/-- C7: a FilePayload in which neither `url` nor `base64Data` is populated
fails resolution with the validation error (issuing no backend call at all),
and in the upload loop no `uploadToRagStore` call is ever issued for that
file: the loop's trace holds at most one upload per file strictly before it. -/
theorem payload_without_source_fails_before_upload (env : Backend) (p : InitChatPayloadFile)
    (h1 : truthy p.url = false) (h2 : truthy p.base64Data = false) :
    getFileFromPayload env p = (.error invalidPayloadMsg, []) ∧
    ∀ store pre post, countUploads (uploadFilesLoop env store (pre ++ p :: post)).2 ≤ pre.length := by
  have hfail : getFileFromPayload env p = (.error invalidPayloadMsg, []) := by
    simp [getFileFromPayload, h1, h2]
  exact ⟨hfail, fun store pre post => uploadFilesLoop_stops env store p hfail pre post⟩

/-- C7 witness at a concrete sourceless payload. -/
theorem payload_without_source_fails_before_upload_witness :
    getFileFromPayload envOk payloadEmptySource = (.error invalidPayloadMsg, []) ∧
    countUploads (uploadFilesLoop envOk "store-1" [payloadEmptySource]).2 ≤ 0 := by
  have h := payload_without_source_fails_before_upload envOk payloadEmptySource rfl rfl
  exact ⟨h.1, h.2 "store-1" [] []⟩

/-- C8: a sendMessage command received while status is not Chatting yields
exactly one chatError event, leaves the state unchanged (in particular the
history), and issues no backend call. -/
theorem sendMessage_rejected_outside_chatting (env : Backend) (s : AppState) (m : String)
    (h : s.status ≠ .Chatting) :
    handleMessage env s (.sendMessage m) =
      ⟨s, [.chatError "Chat is not active to send message."], []⟩ := by
  simp [handleMessage, h]

/-- C8 witness in the initial state. -/
theorem sendMessage_rejected_outside_chatting_witness :
    handleMessage envOk initialState (.sendMessage "hi") =
      ⟨initialState, [.chatError "Chat is not active to send message."], []⟩ :=
  sendMessage_rejected_outside_chatting envOk initialState "hi" (by decide)

/-- C10: when `url` is populated (even if `base64Data` also is), resolution
uses the url branch exclusively: exactly one fetch is issued, the result does
not depend on `base64Data` at all (so the inline data is never decoded), and
an ok fetch response yields the fetched file, never the validation error. -/
theorem url_branch_exclusive (env : Backend) (p : InitChatPayloadFile) (u : String)
    (hu : p.url = some u) (hne : u ≠ "") (hb : truthy p.base64Data = true) :
    (getFileFromPayload env p).2 = [.fetchUrl u] ∧
    (∀ b : Option String, getFileFromPayload env { p with base64Data := b } =
      getFileFromPayload env p) ∧
    (∀ resp : FetchResponse, env.fetchUrl u = .ok resp → resp.ok = true →
      (getFileFromPayload env p).1 =
        .ok { name := jsOr (some p.fileName) "unknown_file"
              type := jsOr p.mimeType resp.blobType
              bytes := resp.blobBytes }) := by
  have ht : truthy p.url = true := by simp [hu, truthy, hne]
  have hgd : p.url.getD "" = u := by rw [hu]; rfl
  refine ⟨?_, ?_, ?_⟩
  · rw [getFileFromPayload, if_pos ht]
    simp only [hgd]
    cases hf : env.fetchUrl u with
    | error e => rfl
    | ok resp =>
      rcases resp with ⟨rok, rst, rbb, rbt⟩
      cases rok <;> rfl
  · intro b
    rw [getFileFromPayload, getFileFromPayload, if_pos ht, if_pos ht]
  · intro resp hresp hok
    rw [getFileFromPayload, if_pos ht]
    simp only [hgd, hresp, hok]
    rfl

/-- C10 witness at a doubly-populated payload under `envOk`. -/
theorem url_branch_exclusive_witness :
    (getFileFromPayload envOk payloadBoth).2 = [.fetchUrl "https://example.com/a.pdf"] ∧
    getFileFromPayload envOk { payloadBoth with base64Data := none } =
      getFileFromPayload envOk payloadBoth ∧
    (getFileFromPayload envOk payloadBoth).1 =
      .ok { name := "dual.pdf", type := "application/pdf", bytes := [1, 2] } := by
  have h := url_branch_exclusive envOk payloadBoth "https://example.com/a.pdf" rfl
    (by decide) rfl
  refine ⟨h.1, h.2.1 none, ?_⟩
  have h3 := h.2.2 (⟨true, "OK", [1, 2], "application/pdf"⟩ : FetchResponse) rfl rfl
  exact h3

/-- C5 counterexample: an initChat with an empty file array received in the
Initializing state transitions the session to Error (via handleError), so the
status does not remain Initializing as claimed. -/
theorem initChat_empty_files_counterexample :
    (handleMessage envOk initialState (.initChat [] none)).state.status = .Error ∧
    (handleMessage envOk initialState (.initChat [] none)).state.status ≠ .Initializing :=
  ⟨rfl, by decide⟩

/-- C5 amended: an initChat with an empty file array received while status is
Initializing emits exactly one chatError event and issues no backend call (no
store creation or upload is attempted), but its status transition is to
Error, not back to Initializing. -/
theorem initChat_empty_files_amended (env : Backend) (s : AppState) (dn : Option String)
    (h : s.status = .Initializing) :
    (handleMessage env s (.initChat [] dn)).state.status = .Error ∧
    (handleMessage env s (.initChat [] dn)).events =
      [.chatError "No files provided for chat initialization."] ∧
    (handleMessage env s (.initChat [] dn)).calls = [] := by
  simp [handleMessage, h, handleInitChat, handleError, errorText]

/-- C5 witness in the initial state. -/
theorem initChat_empty_files_amended_witness :
    (handleMessage envOk initialState (.initChat [] none)).state.status = .Error ∧
    (handleMessage envOk initialState (.initChat [] none)).events =
      [.chatError "No files provided for chat initialization."] ∧
    (handleMessage envOk initialState (.initChat [] none)).calls = [] :=
  initChat_empty_files_amended envOk initialState none rfl

/-- C6: a fully successful initChat (nonempty files, initialize, store
creation, the whole resolve-and-upload loop and question generation all
succeed) ends Chatting with documentName equal to the spec's label rule on
the resolved files: display name if given, else the single file's name, else
"A & B" for two, else "N documents". -/
theorem initChat_success_documentName (env : Backend) (s : AppState)
    (files : List InitChatPayloadFile) (dn : Option String)
    (store : String) (fs : List FileObj) (cs : List BackendCall) (qs : List String)
    (hne : files ≠ [])
    (hinit : env.initializeResult = .ok ())
    (hcreate : env.createRagStore ("chat-session-" ++ toString env.now) = .ok store)
    (hloop : uploadFilesLoop env store files = (.ok fs, cs))
    (hq : env.generateExampleQuestions store = .ok qs) :
    (handleInitChat env s files dn).state.documentName = documentLabelSpec dn fs ∧
    (handleInitChat env s files dn).state.status = .Chatting := by
  have hlen : ¬ files.length = 0 := by simpa using hne
  rw [handleInitChat, if_neg hlen, hinit]
  simp only [hcreate, hloop, hq]
  exact ⟨rfl, trivial⟩

/-- C6 witness: two files named A.pdf and B.pdf, no display name. -/
theorem initChat_success_documentName_witness :
    (handleInitChat envOk initialState [payloadA, payloadB] none).state.documentName =
      "A.pdf & B.pdf" ∧
    (handleInitChat envOk initialState [payloadA, payloadB] none).state.status = .Chatting := by
  have h := initChat_success_documentName envOk initialState [payloadA, payloadB] none
    "store-1"
    [⟨"A.pdf", "application/pdf", [65, 66, 67]⟩, ⟨"B.pdf", "application/pdf", [65, 66, 67]⟩]
    [.uploadToRagStore "store-1" ⟨"A.pdf", "application/pdf", [65, 66, 67]⟩,
     .uploadToRagStore "store-1" ⟨"B.pdf", "application/pdf", [65, 66, 67]⟩]
    ["q1"] (by decide) rfl rfl rfl rfl
  exact ⟨h.1.trans rfl, h.2⟩

/-- C1 counterexample: starting from the Chatting state reached by a
successful initChat, a query whose fileSearch call fails does append the
user message and the fixed apology, but the resulting status is Error, not
Chatting as the claim states. -/
theorem query_failure_counterexample :
    stateAfterInit.status = .Chatting ∧
    (handleMessage envQueryFail stateAfterInit (.sendMessage "hello")).state.chatHistory =
      [⟨.user, ["hello"], none⟩, ⟨.model, [apologyText], none⟩] ∧
    (handleMessage envQueryFail stateAfterInit (.sendMessage "hello")).state.status = .Error ∧
    (handleMessage envQueryFail stateAfterInit (.sendMessage "hello")).state.status ≠ .Chatting :=
  ⟨rfl, rfl, rfl, by decide⟩

/-- C1 amended: a query processed while status is Chatting (with an active
store) whose fileSearch call fails appends exactly the user message and the
fixed apology to the history, but the session status after the operation is
Error (handleError runs), not Chatting. -/
theorem query_failure_amended (env : Backend) (s : AppState) (msg store e : String)
    (hst : s.status = .Chatting) (hstore : s.activeRagStoreName = some store)
    (hne : store ≠ "") (hfail : env.fileSearch store msg = .error e) :
    (handleMessage env s (.sendMessage msg)).state.chatHistory =
      s.chatHistory ++ [⟨.user, [msg], none⟩, ⟨.model, [apologyText], none⟩] ∧
    (handleMessage env s (.sendMessage msg)).state.status = .Error := by
  have ht : truthy s.activeRagStoreName = true := by simp [hstore, truthy, hne]
  have hgd : s.activeRagStoreName.getD "" = store := by rw [hstore]; rfl
  simp only [handleMessage, hst, if_pos, handleSendMessage, ht, hgd, hfail, handleError,
    Bool.not_true, Bool.false_eq_true, if_false]
  constructor
  · simp
  · trivial

/-- C1 witness at the state after a successful initChat. -/
theorem query_failure_amended_witness :
    (handleMessage envQueryFail stateAfterInit (.sendMessage "hello")).state.chatHistory =
      stateAfterInit.chatHistory ++ [⟨.user, ["hello"], none⟩, ⟨.model, [apologyText], none⟩] ∧
    (handleMessage envQueryFail stateAfterInit (.sendMessage "hello")).state.status = .Error :=
  query_failure_amended envQueryFail stateAfterInit "hello" "store-1" "backend unavailable"
    rfl rfl (by decide) rfl

/-- C2 counterexample: in a session where the store `store-1` was created and
the upload step then failed, the compensating deletion is issued during
initChat (one deleteRagStore call in its trace), and a subsequent resetChat
issues a second deleteRagStore call for the same identifier — so the store is
targeted for deletion twice, not exactly once. -/
theorem store_deleted_twice_counterexample :
    (handleInitChat envUploadFail initialState [payloadA] none).calls.count
      (.deleteRagStore "store-1") = 1 ∧
    (handleResetChat envOk
      (handleInitChat envUploadFail initialState [payloadA] none).state).calls.count
      (.deleteRagStore "store-1") = 1 :=
  ⟨rfl, rfl⟩

/-- C2 amended: when an initChat leaves the active store identifier set and
already issued a compensating deletion for it (the failed-init path does not
clear the field), any subsequent resetChat issues a second deletion call on
that same identifier. -/
theorem reset_after_failed_init_deletes_again (envInit envReset : Backend) (s : AppState)
    (files : List InitChatPayloadFile) (dn : Option String) (n : String)
    (hstore : (handleInitChat envInit s files dn).state.activeRagStoreName = some n)
    (hdel : BackendCall.deleteRagStore n ∈ (handleInitChat envInit s files dn).calls)
    (hne : n ≠ "") :
    BackendCall.deleteRagStore n ∈
      (handleResetChat envReset (handleInitChat envInit s files dn).state).calls := by
  have ht : truthy (handleInitChat envInit s files dn).state.activeRagStoreName = true := by
    simp [hstore, truthy, hne]
  have hgd : (handleInitChat envInit s files dn).state.activeRagStoreName.getD "" = n := by
    rw [hstore]; rfl
  rw [handleResetChat, if_pos ht]
  simp only [hgd]
  cases hd : envReset.deleteRagStore n with
  | ok u => simp
  | error e => simp

/-- C2 witness: the concrete failed-init session deleted again on reset. -/
theorem reset_after_failed_init_deletes_again_witness :
    BackendCall.deleteRagStore "store-1" ∈
      (handleResetChat envOk
        (handleInitChat envUploadFail initialState [payloadA] none).state).calls :=
  reset_after_failed_init_deletes_again envUploadFail envOk initialState [payloadA] none
    "store-1" rfl (by decide) (by decide)

/-- C3 counterexample: a reachable state violates the claimed invariant —
after an initChat whose upload failed (store created) and the Error-state
acknowledgment, the session is back in Initializing with the active store
identifier still non-null. -/
theorem storeId_invariant_counterexample :
    Reachable (clearError stateAfterFailedInit) ∧
    (clearError stateAfterFailedInit).status = .Initializing ∧
    (clearError stateAfterFailedInit).activeRagStoreName = some "store-1" :=
  ⟨Reachable.ack (Reachable.step envUploadFail (.initChat [payloadA] none) Reachable.init),
    rfl, rfl⟩

/-- C3 amended: the active store identifier is null in the initial state, but
it is not always null while status is Initializing: the Error acknowledgment
(clearError) returns the session to Initializing while preserving whatever
store identifier is recorded — in particular the one left by a
partially-completed initialization. -/
theorem clearError_preserves_storeId (s : AppState) :
    initialState.activeRagStoreName = none ∧
    (clearError s).status = .Initializing ∧
    (clearError s).activeRagStoreName = s.activeRagStoreName :=
  ⟨rfl, rfl, rfl⟩

/-- C4 counterexample: a resetChat whose store deletion fails ends in status
Error with the history, store identifier and document name untouched, and
emits a chatError instead of a chatEnded event — the claimed unconditional
reset outcome does not hold. -/
theorem reset_failure_counterexample :
    (handleResetChat envDeleteFail stateAfterChat).state.status = .Error ∧
    (handleResetChat envDeleteFail stateAfterChat).state.chatHistory ≠ [] ∧
    (handleResetChat envDeleteFail stateAfterChat).state.activeRagStoreName = some "store-1" ∧
    (handleResetChat envDeleteFail stateAfterChat).events =
      [.chatError "Failed to delete RAG store during reset.: delete failed"] :=
  ⟨rfl, by decide, rfl, rfl⟩

/-- C4 amended: resetChat yields the claimed outcome (Initializing status,
cleared history/suggestions/document name, null store, one chatEnded event)
when there is no active store or when the deletion succeeds; but when the
deletion of the active store fails, handleError runs instead: the session
moves to Error, nothing is cleared, and a chatError — not a chatEnded — is
emitted. -/
theorem resetChat_outcomes (env : Backend) (s : AppState) :
    (truthy s.activeRagStoreName = false →
      handleResetChat env s =
        ⟨{ s with activeRagStoreName := none
                  chatHistory := []
                  exampleQuestions := []
                  documentName := ""
                  status := .Initializing },
          [.chatEnded "Chat session reset (no active store)."], []⟩) ∧
    (∀ n, s.activeRagStoreName = some n → n ≠ "" → env.deleteRagStore n = .ok () →
      handleResetChat env s =
        ⟨{ s with activeRagStoreName := none
                  chatHistory := []
                  exampleQuestions := []
                  documentName := ""
                  status := .Initializing
                  isQueryLoading := false },
          [.chatEnded "Chat session reset."], [.deleteRagStore n]⟩) ∧
    (∀ n e, s.activeRagStoreName = some n → n ≠ "" → env.deleteRagStore n = .error e →
      (handleResetChat env s).state.status = .Error ∧
      (handleResetChat env s).state.chatHistory = s.chatHistory ∧
      (handleResetChat env s).state.activeRagStoreName = some n ∧
      (handleResetChat env s).events =
        [.chatError ("Failed to delete RAG store during reset." ++ ": " ++ e)]) := by
  refine ⟨?_, ?_, ?_⟩
  · intro hf
    rw [handleResetChat, if_neg (by simp [hf])]
  · intro n hn hne hdel
    have ht : truthy s.activeRagStoreName = true := by simp [hn, truthy, hne]
    have hgd : s.activeRagStoreName.getD "" = n := by rw [hn]; rfl
    rw [handleResetChat, if_pos ht]
    simp only [hgd, hdel]
  · intro n e hn hne hdel
    have ht : truthy s.activeRagStoreName = true := by simp [hn, truthy, hne]
    have hgd : s.activeRagStoreName.getD "" = n := by rw [hn]; rfl
    rw [handleResetChat, if_pos ht]
    simp only [hgd, hdel, handleError, errorText]
    refine ⟨?_, ?_, ?_, ?_⟩ <;> first | exact hn | rfl | trivial

/-- C4 witness: reset without an active store in the initial state. -/
theorem resetChat_outcomes_witness :
    handleResetChat envOk initialState =
      ⟨{ initialState with activeRagStoreName := none
                           chatHistory := []
                           exampleQuestions := []
                           documentName := ""
                           status := .Initializing },
        [.chatEnded "Chat session reset (no active store)."], []⟩ :=
  (resetChat_outcomes envOk initialState).1 rfl

/-- C9 counterexample: for the empty byte sequence the encoded payload is the
empty string, which JavaScript truthiness sends to the validation-error
branch — resolution fails instead of returning an empty file, so the claimed
round-trip does not hold for every byte sequence. -/
theorem base64_roundtrip_counterexample :
    (getFileFromPayload envOk
        { fileName := "empty.bin", mimeType := some "application/octet-stream", url := none,
          base64Data := some (b64Encode []) }).1 = .error invalidPayloadMsg :=
  rfl

/-- C9 amended: for every nonempty byte sequence and nonempty declared MIME
type, resolving a payload carrying the standard base64 encoding of the bytes
(and no url) yields a file whose content bytes equal the original bytes and
whose type equals the declared MIME type; no backend call is issued. -/
theorem base64_roundtrip (env : Backend) (bytes : List Nat) (fn mt : String)
    (hb : ∀ b ∈ bytes, b < 256) (hbe : bytes ≠ []) (hmt : mt ≠ "") :
    getFileFromPayload env
        { fileName := fn, mimeType := some mt, url := none,
          base64Data := some (b64Encode bytes) } =
      (.ok { name := jsOr (some fn) "unknown_file", type := mt, bytes := bytes }, []) := by
  have henc : b64EncodeBytes bytes ≠ [] := by
    cases bytes with
    | nil => exact absurd rfl hbe
    | cons a rest =>
      cases rest with
      | nil => simp [b64EncodeBytes, b64Body]
      | cons b rest2 => cases rest2 <;> simp [b64EncodeBytes, b64Body]
  have hstr : b64Encode bytes ≠ "" := by
    rw [b64Encode]
    intro hcontra
    exact henc (congrArg String.data hcontra)
  have ht : truthy (some (b64Encode bytes)) = true := by simp [truthy, hstr]
  have hmt' : truthy (some mt) = true := by simp [truthy, hmt]
  rw [getFileFromPayload]
  rw [if_neg (by simp [truthy])]
  rw [if_pos (by simp [ht, hmt'])]
  simp only [Option.getD_some, atobBytes_b64Encode bytes hb]

/-- C9 witness: the bytes of "Hi" round-trip through a concrete payload. -/
theorem base64_roundtrip_witness :
    getFileFromPayload envOk
        { fileName := "hi.txt", mimeType := some "text/plain", url := none,
          base64Data := some (b64Encode [72, 105]) } =
      (.ok { name := "hi.txt", type := "text/plain", bytes := [72, 105] }, []) := by
  have h := base64_roundtrip envOk [72, 105] "hi.txt" "text/plain"
    (by decide) (by decide) (by decide)
  exact h
